import Mathlib

/-!
# Verification of the ViewMax content API (server.js)

A shallow embedding of the Express server that serves movie and series
metadata from two JSON data files.  Collections are lists of records;
request handlers become pure Lean functions from the loaded collections
and the query parameters to a response value.  Query-string parameters
that may be absent are `Option String` / `Option Int` (a JS falsy empty
string is treated by the code like an absent parameter, and the
embedding checks for it explicitly where the code does).  Numeric
ratings are modelled as rationals; the only JS number non-finiteness the
code can produce (NaN from the unguarded `0/0` in the stats averages) is
modelled by an explicit `JSNum` type.
-/

namespace ViewMax

/-- The up-to-three streaming source slots of a title or episode
(`sources.source1/2/3` in the JSON data).  A slot that is absent from
the object is `none`. -/
structure Sources where
  source1 : Option String
  source2 : Option String
  source3 : Option String
  deriving Repr, DecidableEq

/-- An episode record owned by a series: `season`, `episode`, `title`,
`sources`.  `sources := none` models an episode object with no `sources`
field. -/
structure Episode where
  season : Int
  episode : Int
  title : String
  sources : Option Sources
  deriving Repr, DecidableEq

/-- A movie or series record.  `rating` is the numeric value of the
record's rating field (`none` when the field is absent; the code applies
`parseFloat(m.rating || 0)` so an absent rating counts as 0).
`sources := none` models a record with no `sources` field; `episodes`
is the series' episode list (`[]` both for a movie and for a series
whose `episodes` field is absent or empty — the code treats those two
alike via the optional chaining and the length guard on `episodes`). -/
structure Title where
  name : String
  genre : String
  description : String
  rating : Option ℚ
  sources : Option Sources
  episodes : List Episode
  deriving Repr, DecidableEq

/-- The two collections read from `movies.json` and `series.json`. -/
structure Store where
  movies : List Title
  series : List Title
  deriving Repr, DecidableEq

/-- Outcome of reading and parsing one data file: either a parsed
collection or a read/parse failure. -/
inductive FileResult where
  | ok (titles : List Title)
  | error
  deriving Repr, DecidableEq

/-- `readJSONFile` (server.js lines 48–57): any read or parse error is
caught and the function returns `[]`. -/
def readJSONFile : FileResult → List Title
  | .ok ts => ts
  | .error => []

/-- A store as every request loads it: each collection comes from
`readJSONFile` on the corresponding file. -/
def loadStore (mr sr : FileResult) : Store :=
  { movies := readJSONFile mr, series := readJSONFile sr }

/-- JS `String.prototype.toLowerCase`, applied per character (ASCII
case folding, `Char.toLower`), over the underlying character list. -/
def strToLower (s : String) : String :=
  ⟨s.data.map Char.toLower⟩

/-- JS `hay.includes(needle)` on the underlying character lists:
some contiguous run of `hay` equals `needle`. -/
def listIncludes (hay needle : List Char) : Bool :=
  match hay with
  | [] => needle.isEmpty
  | _ :: t => needle.isPrefixOf hay || listIncludes t needle

/-- JS `hay.includes(needle)` for strings. -/
def strIncludes (hay needle : String) : Bool :=
  listIncludes hay.data needle.data

/-- The search predicate of the list and search endpoints: the
lowercased search term is a substring of the lowercased `name`,
`description`, or `genre` (server.js lines 82–86, 155–159, 287–291,
300–304; `searchTerm` is already lowercased by the caller). -/
def matchesSearch (t : Title) (searchTerm : String) : Bool :=
  strIncludes (strToLower t.name) searchTerm ||
  strIncludes (strToLower t.description) searchTerm ||
  strIncludes (strToLower t.genre) searchTerm

/-- `if (search) { ... movies.filter(...) }` (server.js lines 80–87):
the filter runs only when `search` is truthy, i.e. present and
non-empty. -/
def searchFilter (search : Option String) (ts : List Title) : List Title :=
  match search with
  | none => ts
  | some q => if q = "" then ts else ts.filter (fun t => matchesSearch t (strToLower q))

/-- `if (genre && genre !== 'all') { ... }` (server.js lines 90–94,
163–167): filter by case-insensitive substring match on the `genre`
field, skipped when genre is absent, empty, or the literal `'all'`. -/
def genreFilter (genre : Option String) (ts : List Title) : List Title :=
  match genre with
  | none => ts
  | some g =>
    if g = "" ∨ g = "all" then ts
    else ts.filter (fun t => strIncludes (strToLower t.genre) (strToLower g))

/-- The successful response envelope of a paginated list endpoint. -/
structure Page (α : Type) where
  data : List α
  total : Nat
  limit : Nat
  offset : Nat
  hasMore : Bool
  deriving Repr, DecidableEq

/-- The shared body of `app.get('/api/movies')` (server.js lines
74–116) and the textually identical `app.get('/api/series')` (lines
147–189): filter by search term, then by genre, then paginate with
`slice(offset, offset + limit)`, reporting `total` as the filtered
length and `hasMore = offset + limit < total`.  `limit` and `offset`
are the parsed non-negative integer query values (defaults 20 and 0
applied by the caller). -/
def apiList (ts : List Title) (search genre : Option String)
    (limit offset : Nat) : Page Title :=
  let filtered := genreFilter genre (searchFilter search ts)
  { data := (filtered.drop offset).take limit
    total := filtered.length
    limit := limit
    offset := offset
    hasMore := offset + limit < filtered.length }

/-- An item of the universal search results: a title together with the
`type` tag (`'movie'` or `'series'`) spread onto it (server.js lines
292, 305). -/
structure SearchItem where
  item : Title
  type : String
  deriving Repr, DecidableEq

/-- The genre filter of `/api/search` (server.js lines 310–314), same
predicate as `genreFilter` but over tagged results. -/
def genreFilterTagged (genre : Option String) (rs : List SearchItem) : List SearchItem :=
  match genre with
  | none => rs
  | some g =>
    if g = "" ∨ g = "all" then rs
    else rs.filter (fun r => strIncludes (strToLower r.item.genre) (strToLower g))

/-- The concatenated, type-tagged results of `/api/search` before the
genre filter (server.js lines 281–307): movies when `type` is absent,
`'movie'` or `'all'`; then series when `type` is absent, `'series'` or
`'all'`. -/
def searchResults (store : Store) (q : String) (type? : Option String) : List SearchItem :=
  let searchTerm := strToLower q
  let movieResults :=
    if type? = none ∨ type? = some "movie" ∨ type? = some "all" then
      (store.movies.filter (fun t => matchesSearch t searchTerm)).map
        (fun t => SearchItem.mk t "movie")
    else []
  let seriesResults :=
    if type? = none ∨ type? = some "series" ∨ type? = some "all" then
      (store.series.filter (fun t => matchesSearch t searchTerm)).map
        (fun t => SearchItem.mk t "series")
    else []
  movieResults ++ seriesResults

/-- Response of `/api/search`: 400 when `q` is missing (or empty, which
is falsy in `if (!q)`), otherwise a paginated page of tagged results. -/
inductive SearchResponse where
  | badRequest
  | page (p : Page SearchItem)
  deriving Repr, DecidableEq

/-- HTTP status of a `/api/search` response. -/
def SearchResponse.status : SearchResponse → Nat
  | .badRequest => 400
  | .page _ => 200

/-- The `success` field of a `/api/search` response envelope. -/
def SearchResponse.success : SearchResponse → Bool
  | .badRequest => false
  | .page _ => true

/-- `app.get('/api/search')` (server.js lines 269–337): reject a
missing/empty `q` with 400 before any file is read; otherwise collect
type-tagged matches from both collections, apply the genre filter, and
paginate exactly as the list endpoints do. -/
def apiSearch (store : Store) (q? type? genre : Option String)
    (limit offset : Nat) : SearchResponse :=
  match q? with
  | none => .badRequest
  | some q =>
    if q = "" then .badRequest
    else
      let results := genreFilterTagged genre (searchResults store q type?)
      .page
        { data := (results.drop offset).take limit
          total := results.length
          limit := limit
          offset := offset
          hasMore := offset + limit < results.length }

/-- Exact case-insensitive name lookup, `collection.find(x =>
x.name.toLowerCase() === title.toLowerCase())` (server.js lines
353–355, 375–377). -/
def findByName (ts : List Title) (title : String) : Option Title :=
  ts.find? (fun t => strToLower t.name == strToLower title)

/-- The source-selector mapping used at each resolution site (server.js
lines 358–360, 387–389, 409–411): `primary→source1`,
`secondary→source2`, `tertiary→source3`, anything else `source1`. -/
def sourceKey (source : String) : String :=
  if source = "primary" then "source1"
  else if source = "secondary" then "source2"
  else if source = "tertiary" then "source3"
  else "source1"

/-- Dynamic slot access `sources[key]`. -/
def Sources.get (s : Sources) (key : String) : Option String :=
  if key = "source1" then s.source1
  else if key = "source2" then s.source2
  else if key = "source3" then s.source3
  else none

/-- `sources[sourceKey] || sources.source1` (server.js lines 367, 399,
421).  JS `||` falls back when the slot is `undefined` (or an empty
string; slots in the data model hold URLs, so the model folds
absent-or-empty into `none`).  The fallback value `sources.source1` is
returned whether or not it is itself present. -/
def resolveIframe (s : Sources) (source : String) : Option String :=
  match s.get (sourceKey source) with
  | some u => some u
  | none => s.source1

/-- `Object.keys(sources)` restricted to the three modelled slots. -/
def Sources.keys (s : Sources) : List String :=
  (if s.source1.isSome then ["source1"] else []) ++
  (if s.source2.isSome then ["source2"] else []) ++
  (if s.source3.isSome then ["source3"] else [])

/-- Response of `/api/iframe`: 400 on a missing title, a movie or
series-episode payload on success, 404 when nothing resolves, and 500
for the uncaught `TypeError` the handler throws when it reads
`firstEp.sources[sourceKey]` on a first episode with no `sources`
field (caught by the route's `catch`, server.js lines 432–438). -/
inductive IframeResponse where
  | badRequest
  | movie (title : String) (iframe : Option String) (availableSources : List String)
  | seriesEp (title : String) (season episode : Int) (episodeTitle : String)
      (iframe : Option String) (availableSources : List String)
  | notFound
  | serverError
  deriving Repr, DecidableEq

/-- HTTP status of a `/api/iframe` response. -/
def IframeResponse.status : IframeResponse → Nat
  | .badRequest => 400
  | .movie _ _ _ => 200
  | .seriesEp _ _ _ _ _ _ => 200
  | .notFound => 404
  | .serverError => 500

/-- The `success` field of a `/api/iframe` response envelope. -/
def IframeResponse.success : IframeResponse → Bool
  | .movie _ _ _ => true
  | .seriesEp _ _ _ _ _ _ => true
  | _ => false

/-- The series half of the iframe handler (server.js lines 374–426),
reached when no movie matched or the matched movie had no `sources`
field: find the series by name; when `season` and `episode` are both
given, try the exact `(season, episode)` episode and answer from it when
it exists and has sources; otherwise answer from the first stored
episode — whose `sources` field the code dereferences without a guard,
so a sourceless first episode throws (→ 500); with no episodes at all
the handler falls through to 404. -/
def iframeSeries (store : Store) (title source : String)
    (season? episode? : Option Int) : IframeResponse :=
  match findByName store.series title with
  | none => .notFound
  | some sh =>
    let epHit : Option IframeResponse :=
      match season?, episode? with
      | some se, some ep =>
        match sh.episodes.find? (fun e => e.season == se && e.episode == ep) with
        | some e =>
          match e.sources with
          | some s =>
            some (.seriesEp sh.name e.season e.episode e.title (resolveIframe s source) s.keys)
          | none => none
        | none => none
      | _, _ => none
    match epHit with
    | some r => r
    | none =>
      match sh.episodes with
      | [] => .notFound
      | firstEp :: _ =>
        match firstEp.sources with
        | none => .serverError
        | some s =>
          .seriesEp sh.name firstEp.season firstEp.episode firstEp.title
            (resolveIframe s source) s.keys

/-- `app.get('/api/iframe')` (server.js lines 340–439): 400 on a
missing (or empty, falsy) title; otherwise try the movies collection
first by exact case-insensitive name — when a movie matches **and** has
a `sources` field the handler resolves from it and returns at once;
otherwise it continues into the series collection (`iframeSeries`).
`source` defaults to `"primary"` at the caller. -/
def apiIframe (store : Store) (title? : Option String) (source : String)
    (season? episode? : Option Int) : IframeResponse :=
  match title? with
  | none => .badRequest
  | some title =>
    if title = "" then .badRequest
    else
      match findByName store.movies title with
      | some movie =>
        match movie.sources with
        | some s => .movie movie.name (resolveIframe s source) s.keys
        | none => iframeSeries store title source season? episode?
      | none => iframeSeries store title source season? episode?

/-- The ECMA `SortCompare` wrapping of the trending comparator
`(a, b) => parseFloat(b.rating) - parseFloat(a.rating)` (server.js
lines 450, 459), read as "`a` need not be placed after `b`": true when
the comparator value is ≤ 0, and also when it is NaN — `parseFloat` of
an absent rating is NaN and `SortCompare` maps a NaN comparator result
to +0 — so under a stable sort such a pair keeps its stored order. -/
def trendingKeepsOrder (a b : Title) : Bool :=
  match a.rating, b.rating with
  | some ra, some rb => decide (rb ≤ ra)
  | _, _ => true

/-- One insertion step of the stable sort with respect to
`trendingKeepsOrder`: the inserted element stops in front of the first
element it need not follow, so order-equivalent elements (equal
ratings, or a NaN comparison) keep their stored order. -/
def insertByRatingDesc (t : Title) : List Title → List Title
  | [] => [t]
  | h :: rest =>
    if trendingKeepsOrder t h then t :: h :: rest
    else h :: insertByRatingDesc t rest

/-- `collection.sort((a, b) => parseFloat(b.rating) -
parseFloat(a.rating))` (server.js lines 450, 459): the stable sort
mandated by ES2019, under the `SortCompare`-wrapped comparator,
realized as insertion sort from the right so that the earlier of two
order-equivalent elements ends up first.  (When a rating is absent the
comparator is not a consistent comparison function and ECMA leaves the
order implementation-defined; the model takes the behavior of the
mainstream engines' stable sorts, which leave NaN-comparing pairs in
place.) -/
def sortByRatingDesc (ts : List Title) : List Title :=
  ts.foldr insertByRatingDesc []

/-- The concatenated trending candidates before the shuffle (server.js
lines 447–463): for each collection whose branch condition holds
(`!type || type === 'all' || type === '<kind>'`), sort by rating
descending, take the first `limit / 2` (JS `parseInt(limit) / 2`
truncated by `slice`), and tag with the content type. -/
def trendingPool (store : Store) (type? : Option String) (limit : Nat) : List SearchItem :=
  let fromMovies :=
    if type? = none ∨ type? = some "all" ∨ type? = some "movie" then
      ((sortByRatingDesc store.movies).take (limit / 2)).map (fun t => SearchItem.mk t "movie")
    else []
  let fromSeries :=
    if type? = none ∨ type? = some "all" ∨ type? = some "series" then
      ((sortByRatingDesc store.series).take (limit / 2)).map (fun t => SearchItem.mk t "series")
    else []
  fromMovies ++ fromSeries

/-- `app.get('/api/trending')` (server.js lines 442–481): build the
pool, shuffle it (`sort(() => Math.random() - 0.5)`, a non-deterministic
permutation represented by the `shuffle` argument), and truncate to
`limit`. -/
def apiTrending (store : Store) (type? : Option String) (limit : Nat)
    (shuffle : List SearchItem → List SearchItem) : List SearchItem :=
  (shuffle (trendingPool store type? limit)).take limit

/-- Modelled from the spec: the ranking value behind the phrase
"highest-rated …, sorted by numeric rating descending" — the numeric
rating, with a title that lacks one ranking below every rated title
(taken as 0; ratings in the data model are non-negative). -/
def specRating (t : Title) : ℚ := t.rating.getD 0

/-- One insertion step of the stable descending sort by `specRating`
(ties keep their stored order). -/
def insertBySpecRating (t : Title) : List Title → List Title
  | [] => [t]
  | h :: rest =>
    if specRating h ≤ specRating t then t :: h :: rest
    else h :: insertBySpecRating t rest

/-- Modelled from the spec: "sorted by numeric rating descending", as a
stable sort by `specRating`. -/
def specSortByRatingDesc (ts : List Title) : List Title :=
  ts.foldr insertBySpecRating []

/-- Modelled from the spec: the trending pool as the claim words it —
the `limit / 2` highest-rated movies together with the `limit / 2`
highest-rated series, each sorted by numeric rating descending and
tagged with its content type. -/
def specTrendingPool (store : Store) (limit : Nat) : List SearchItem :=
  ((specSortByRatingDesc store.movies).take (limit / 2)).map (fun t => SearchItem.mk t "movie")
    ++ ((specSortByRatingDesc store.series).take (limit / 2)).map (fun t => SearchItem.mk t "series")

/-- A JS number as the stats computation can produce it: a finite
rational, an infinity, or NaN. -/
inductive JSNum where
  | nan
  | inf (pos : Bool)
  | num (q : ℚ)
  deriving Repr, DecidableEq

/-- JS `/` on the (always finite) operands the stats handler divides:
`0 / 0 = NaN`, nonzero `/ 0` = signed infinity, else exact. -/
def JSNum.div : JSNum → JSNum → JSNum
  | .num a, .num b =>
    if b = 0 then (if a = 0 then .nan else .inf (0 < a)) else .num (a / b)
  | _, _ => .nan

/-- JS `Number.prototype.toFixed(1)`: `"NaN"` for NaN, the infinity
strings for infinities, and otherwise the sign of the value followed by
the absolute value rounded to one decimal (ties away from zero, per the
spec's "pick the larger n" applied after the sign is split off). -/
def JSNum.toFixed1 : JSNum → String
  | .nan => "NaN"
  | .inf true => "Infinity"
  | .inf false => "-Infinity"
  | .num q =>
    let sign := if q < 0 then "-" else ""
    let n := (Int.floor (|q| * 10 + 1 / 2)).toNat
    sign ++ toString (n / 10) ++ "." ++ toString (n % 10)

/-- `collection.reduce((sum, m) => sum + parseFloat(m.rating || 0), 0)`
(server.js lines 507–508). -/
def sumRatings (ts : List Title) : ℚ :=
  ts.foldl (fun sum t => sum + t.rating.getD 0) 0

/-- One average-rating field of `/api/stats`: the rating sum divided by
the collection length — unguarded, so an empty collection divides 0 by
0 — then `toFixed(1)`. -/
def averageRatingDisplay (ts : List Title) : String :=
  (JSNum.div (.num (sumRatings ts)) (.num ts.length)).toFixed1

/-- JS `str.split(',')` over the character list: cut at every comma,
keeping empty pieces (the empty string yields `[""]`, as in JS). -/
def splitCommas : List Char → List String
  | [] => [""]
  | c :: rest =>
    if c = ',' then "" :: splitCommas rest
    else
      match splitCommas rest with
      | [] => [String.mk [c]]
      | piece :: more => String.mk (c :: piece.data) :: more

/-- JS `String.prototype.trim`: strip leading and trailing whitespace. -/
def trimStr (s : String) : String :=
  ⟨((s.data.dropWhile Char.isWhitespace).reverse.dropWhile Char.isWhitespace).reverse⟩

/-- `m.genre.split(',').map(g => g.trim())` (server.js lines 495–496). -/
def splitGenres (t : Title) : List String :=
  (splitCommas t.genre.data).map trimStr

/-- The payload of `/api/stats`. -/
structure Stats where
  totalMovies : Nat
  totalSeries : Nat
  totalEpisodes : Nat
  totalGenres : Nat
  genres : List String
  averageMovieRating : String
  averageSeriesRating : String
  deriving Repr, DecidableEq

/-- `app.get('/api/stats')` (server.js lines 484–518): counts, episode
total, genre tags deduplicated in first-occurrence order
(`[...new Set([...])]`), and the two averages. -/
def apiStats (store : Store) : Stats :=
  let movieGenres := store.movies.flatMap splitGenres
  let seriesGenres := store.series.flatMap splitGenres
  let allGenres := (movieGenres ++ seriesGenres).eraseDups
  { totalMovies := store.movies.length
    totalSeries := store.series.length
    totalEpisodes := store.series.foldl (fun total sh => total + sh.episodes.length) 0
    totalGenres := allGenres.length
    genres := allGenres
    averageMovieRating := averageRatingDisplay store.movies
    averageSeriesRating := averageRatingDisplay store.series }

/-! ## Concrete fixtures used by the example instances below -/

/-- A sources mapping with the first two slots filled. -/
def exSources : Sources := ⟨some "u1", some "u2", none⟩

/-- A movie record that matches by name but carries no `sources` field. -/
def exMovieNoSources : Title := ⟨"X", "Drama", "d", some 5, none, []⟩

/-- A series record with the same name `"X"` as `exMovieNoSources` and
one playable episode. -/
def exSeriesX : Title := ⟨"X", "Drama", "d", some 8, none, [⟨1, 1, "E1", some exSources⟩]⟩

/-- A store in which the title `"X"` names both a movie without sources
and a series with a playable episode. -/
def exStoreX : Store := ⟨[exMovieNoSources], [exSeriesX]⟩

/-- A series whose first stored episode has no `sources` field. -/
def exSeriesS : Title := ⟨"S", "Drama", "d", some 5, none, [⟨1, 1, "E1", none⟩]⟩

/-- A store holding only `exSeriesS`. -/
def exStoreS : Store := ⟨[], [exSeriesS]⟩

/-- A movie with a sources mapping, for the slot-selection instances. -/
def exMovieM : Title := ⟨"M", "Action", "d", some 7, some exSources, []⟩

/-- A store holding only `exMovieM`. -/
def exStoreM : Store := ⟨[exMovieM], [exSeriesX]⟩

/-- A movie carrying only a rating, for the stats instances. -/
def exRatedMovie : Title := ⟨"m", "g", "d", some 9, none, []⟩

/-- A movie with no rating field at all. -/
def exMovieUnrated : Title := ⟨"u", "g", "d", none, none, []⟩

/-- A series carrying only a rating, for the stats instances. -/
def exRatedSeries : Title := ⟨"s", "g", "d", some 7, none, []⟩

/-! ## Claims -/

/-- Claim C2: for every collection, every search/genre filter outcome,
and all valid (non-negative integer) `limit` and `offset`, the list
endpoints (`/api/movies`, `/api/series`, both embedded by `apiList`)
and `/api/search` return a data page equal to the filtered collection
sliced from `offset` to `offset + limit` (hence of length at most
`limit`), report `total` equal to the filtered collection's length, and
report `hasMore` true iff `offset + limit` is strictly below that
filtered total. -/
theorem claim_C2 :
    (∀ (ts : List Title) (search genre : Option String) (limit offset : Nat),
      (apiList ts search genre limit offset).data
          = ((genreFilter genre (searchFilter search ts)).drop offset).take limit ∧
      (apiList ts search genre limit offset).data.length ≤ limit ∧
      (apiList ts search genre limit offset).total
          = (genreFilter genre (searchFilter search ts)).length ∧
      ((apiList ts search genre limit offset).hasMore = true ↔
        offset + limit < (genreFilter genre (searchFilter search ts)).length)) ∧
    (∀ (store : Store) (q : String) (type? genre : Option String) (limit offset : Nat),
      q ≠ "" →
      (apiSearch store (some q) type? genre limit offset).status = 200 ∧
      ∀ p, apiSearch store (some q) type? genre limit offset = .page p →
        p.data = ((genreFilterTagged genre (searchResults store q type?)).drop offset).take limit ∧
        p.data.length ≤ limit ∧
        p.total = (genreFilterTagged genre (searchResults store q type?)).length ∧
        (p.hasMore = true ↔ offset + limit < p.total)) := by
  constructor
  · intro ts search genre limit offset
    refine ⟨rfl, List.length_take_le _ _, rfl, ?_⟩
    exact decide_eq_true_iff
  · intro store q type? genre limit offset hq
    simp only [apiSearch, if_neg hq]
    refine ⟨rfl, ?_⟩
    rintro p hp
    injection hp with hp
    subst hp
    refine ⟨rfl, List.length_take_le _ _, rfl, ?_⟩
    exact decide_eq_true_iff

/-- Claim C2, instantiated: the `/api/search` page properties at a
concrete store, query and window. -/
theorem claim_C2_witness :
    (apiSearch exStoreM (some "m") none none 1 0).status = 200 ∧
    ∀ p, apiSearch exStoreM (some "m") none none 1 0 = .page p →
      p.data = ((genreFilterTagged none (searchResults exStoreM "m" none)).drop 0).take 1 ∧
      p.data.length ≤ 1 ∧
      p.total = (genreFilterTagged none (searchResults exStoreM "m" none)).length ∧
      (p.hasMore = true ↔ 0 + 1 < p.total) :=
  claim_C2.2 exStoreM "m" none none 1 0 (by decide)

/-- Claim C5: the case-insensitive substring search filter and the
case-insensitive genre substring filter commute on every collection and
every pair of a search term and a genre term. -/
theorem claim_C5 (ts : List Title) (search genre : Option String) :
    genreFilter genre (searchFilter search ts) = searchFilter search (genreFilter genre ts) := by
  cases search with
  | none => rfl
  | some q =>
    cases genre with
    | none => rfl
    | some g =>
      by_cases hq : q = "" <;> by_cases hg : g = "" ∨ g = "all" <;>
        simp [searchFilter, genreFilter, hq, hg, List.filter_comm, Bool.and_comm]

/-- Claim C10: the literal genre value `'all'` disables the genre
filter on `/api/movies`, `/api/series` (both `apiList`) and
`/api/search`: the result equals the result with no genre parameter. -/
theorem claim_C10 :
    (∀ (ts : List Title) (search : Option String) (limit offset : Nat),
      apiList ts search (some "all") limit offset = apiList ts search none limit offset) ∧
    (∀ (store : Store) (q? type? : Option String) (limit offset : Nat),
      apiSearch store q? type? (some "all") limit offset
        = apiSearch store q? type? none limit offset) := by
  have hg : ∀ ts, genreFilter (some "all") ts = genreFilter none ts := by
    intro ts; simp [genreFilter]
  have ht : ∀ rs, genreFilterTagged (some "all") rs = genreFilterTagged none rs := by
    intro rs; simp [genreFilterTagged]
  constructor
  · intro ts search limit offset
    simp [apiList, hg]
  · intro store q? type? limit offset
    cases q? with
    | none => rfl
    | some q =>
      by_cases hq : q = "" <;> simp [apiSearch, hq, ht]

/-- Claim C8: a `/api/search` request with `q` absent and a
`/api/iframe` request with `title` absent are answered 400 with
`success := false`, uniformly in the store — the constant response for
every store is the embedding of "without reading the data files". -/
theorem claim_C8 :
    (∀ (store : Store) (type? genre : Option String) (limit offset : Nat),
      apiSearch store none type? genre limit offset = .badRequest ∧
      (apiSearch store none type? genre limit offset).status = 400 ∧
      (apiSearch store none type? genre limit offset).success = false) ∧
    (∀ (store : Store) (source : String) (season? episode? : Option Int),
      apiIframe store none source season? episode? = .badRequest ∧
      (apiIframe store none source season? episode?).status = 400 ∧
      (apiIframe store none source season? episode?).success = false) :=
  ⟨fun _ _ _ _ _ => ⟨rfl, rfl, rfl⟩, fun _ _ _ _ => ⟨rfl, rfl, rfl⟩⟩

/-- Claim C7: a failed read or parse of a data file yields the empty
collection (`readJSONFile` swallows the error), and every endpoint on a
store with a failed read behaves exactly as on a store where that
collection is empty — returning its ordinary success (or not-found)
envelope, never a propagated read error; in particular the list page on
a failed read is a success page with no records, and `/api/search` with
a query still answers 200. -/
theorem claim_C7 :
    readJSONFile .error = [] ∧
    (∀ (sr : FileResult) (search genre : Option String) (limit offset : Nat),
      apiList (loadStore .error sr).movies search genre limit offset
        = apiList [] search genre limit offset) ∧
    (∀ (search genre : Option String) (limit offset : Nat),
      (apiList (readJSONFile .error) search genre limit offset).data = [] ∧
      (apiList (readJSONFile .error) search genre limit offset).total = 0) ∧
    (∀ (sr : FileResult) (q? type? genre : Option String) (limit offset : Nat),
      apiSearch (loadStore .error sr) q? type? genre limit offset
        = apiSearch ⟨[], readJSONFile sr⟩ q? type? genre limit offset) ∧
    (∀ (mr : FileResult) (title? : Option String) (source : String) (season? episode? : Option Int),
      apiIframe (loadStore mr .error) title? source season? episode?
        = apiIframe ⟨readJSONFile mr, []⟩ title? source season? episode?) ∧
    apiStats (loadStore .error .error) = apiStats ⟨[], []⟩ ∧
    (∀ (type? genre : Option String) (limit offset : Nat),
      (apiSearch (loadStore .error .error) (some "x") type? genre limit offset).status = 200) := by
  refine ⟨rfl, fun _ _ _ _ _ => rfl, ?_, fun _ _ _ _ _ _ => rfl, fun _ _ _ _ _ => rfl, rfl, ?_⟩
  · intro search genre limit offset
    have h1 : searchFilter search ([] : List Title) = [] := by
      cases search with
      | none => rfl
      | some q => by_cases hq : q = "" <;> simp [searchFilter, hq]
    have h2 : genreFilter genre ([] : List Title) = [] := by
      cases genre with
      | none => rfl
      | some g => by_cases hg : g = "" ∨ g = "all" <;> simp [genreFilter, hg]
    constructor
    · simp [apiList, readJSONFile, h1, h2]
    · simp [apiList, readJSONFile, h1, h2]
  · intro type? genre limit offset
    rfl

/-- Claim C6: `/api/stats` computes each average rating as the rating
sum (absent ratings counting as 0) divided by the collection length,
formatted by `toFixed(1)`; on `movies = [{rating: 9}]`,
`series = [{rating: 7}]` this yields `"9.0"` and `"7.0"`; and on an
empty collection the unguarded `0 / 0` division yields the non-numeric
display `"NaN"`. -/
theorem claim_C6 :
    (∀ movies series : List Title,
      (apiStats ⟨movies, series⟩).averageMovieRating
          = (JSNum.div (.num (sumRatings movies)) (.num movies.length)).toFixed1 ∧
      (apiStats ⟨movies, series⟩).averageSeriesRating
          = (JSNum.div (.num (sumRatings series)) (.num series.length)).toFixed1) ∧
    (apiStats ⟨[exRatedMovie], [exRatedSeries]⟩).averageMovieRating = "9.0" ∧
    (apiStats ⟨[exRatedMovie], [exRatedSeries]⟩).averageSeriesRating = "7.0" ∧
    (∀ series : List Title, (apiStats ⟨[], series⟩).averageMovieRating = "NaN") ∧
    (∀ movies : List Title, (apiStats ⟨movies, []⟩).averageSeriesRating = "NaN") := by
  refine ⟨fun movies series => ⟨rfl, rfl⟩, ?_, ?_, fun series => rfl, fun movies => rfl⟩
  · simp only [apiStats, exRatedMovie, averageRatingDisplay, sumRatings, List.foldl,
      JSNum.div, JSNum.toFixed1, List.length_cons, List.length_nil]
    norm_num
    decide
  · simp only [apiStats, exRatedSeries, averageRatingDisplay, sumRatings, List.foldl,
      JSNum.div, JSNum.toFixed1, List.length_cons, List.length_nil]
    norm_num
    decide

/-- Claim C3: the source selector maps `primary`/`secondary`/`tertiary`
to `source1`/`source2`/`source3` and any other value to `source1`;
whenever the mapped slot is absent from the record's sources the
resolved iframe URL is the record's `source1`; in particular a known
movie resolved with `source=secondary` yields `sources.source2` when
present and `sources.source1` otherwise. -/
theorem claim_C3 :
    (sourceKey "primary" = "source1" ∧ sourceKey "secondary" = "source2" ∧
     sourceKey "tertiary" = "source3" ∧
     ∀ source : String, source ≠ "primary" → source ≠ "secondary" → source ≠ "tertiary" →
       sourceKey source = "source1") ∧
    (∀ (s : Sources) (source : String),
      Sources.get s (sourceKey source) = none → resolveIframe s source = s.source1) ∧
    (∀ (store : Store) (title : String) (movie : Title) (s : Sources),
      title ≠ "" →
      findByName store.movies title = some movie →
      movie.sources = some s →
      (∀ u, s.source2 = some u →
        apiIframe store (some title) "secondary" none none
          = .movie movie.name (some u) s.keys) ∧
      (s.source2 = none →
        apiIframe store (some title) "secondary" none none
          = .movie movie.name s.source1 s.keys)) := by
  refine ⟨⟨rfl, rfl, rfl, ?_⟩, ?_, ?_⟩
  · intro source h1 h2 h3
    simp [sourceKey, h1, h2, h3]
  · intro s source hnone
    simp [resolveIframe, hnone]
  · intro store title movie s hne hfind hsrc
    constructor
    · intro u hu
      simp [apiIframe, hne, hfind, hsrc, resolveIframe, Sources.get, sourceKey, hu]
    · intro hu
      simp [apiIframe, hne, hfind, hsrc, resolveIframe, Sources.get, sourceKey, hu]

/-- Claim C3, instantiated: resolving the stored movie of `exStoreM`
with `source=secondary` returns its `source2` URL. -/
theorem claim_C3_witness :
    apiIframe exStoreM (some "M") "secondary" none none
      = .movie "M" (some "u2") ["source1", "source2"] :=
  (claim_C3.2.2 exStoreM "M" exMovieM exSources (by decide) (by decide) rfl).1 "u2" rfl

/-- Claim C1 as stated fails on the code: in `exStoreX` the title `"X"`
matches a movie by exact case-insensitive name, yet because that movie
has no sources mapping the handler does not answer from it — it
consults the series collection and answers from a series episode, and
removing the series changes the response. -/
theorem claim_C1_counterexample :
    findByName exStoreX.movies "X" = some exMovieNoSources ∧
    exMovieNoSources.sources = none ∧
    apiIframe exStoreX (some "X") "primary" none none
      = .seriesEp "X" 1 1 "E1" (some "u1") ["source1", "source2"] ∧
    apiIframe exStoreX (some "X") "primary" none none
      ≠ apiIframe ⟨exStoreX.movies, []⟩ (some "X") "primary" none none := by
  exact ⟨by decide, rfl, by decide, by decide⟩

/-- Claim C1 (amended): when the iframe title matches a movie that has
a sources mapping, the resolver answers from that movie at once and the
series collection plays no part in the response; when the matched movie
has no sources mapping, the handler instead continues into the series
lookup. -/
theorem claim_C1_amended (store : Store) (title : String) (movie : Title)
    (source : String) (season? episode? : Option Int)
    (hne : title ≠ "")
    (hfind : findByName store.movies title = some movie) :
    (∀ s, movie.sources = some s →
      apiIframe store (some title) source season? episode?
        = .movie movie.name (resolveIframe s source) s.keys ∧
      ∀ series2 : List Title,
        apiIframe ⟨store.movies, series2⟩ (some title) source season? episode?
          = .movie movie.name (resolveIframe s source) s.keys) ∧
    (movie.sources = none →
      apiIframe store (some title) source season? episode?
        = iframeSeries store title source season? episode?) := by
  constructor
  · intro s hs
    constructor
    · simp [apiIframe, hne, hfind, hs]
    · intro series2
      simp [apiIframe, hne, hfind, hs]
  · intro hs
    simp [apiIframe, hne, hfind, hs, iframeSeries]

/-- Claim C1 (amended), instantiated: the sourced movie of `exStoreM`
is resolved directly and the response does not depend on the series
collection. -/
theorem claim_C1_witness :
    apiIframe exStoreM (some "M") "primary" none none
      = .movie "M" (some "u1") ["source1", "source2"] ∧
    ∀ series2 : List Title,
      apiIframe ⟨exStoreM.movies, series2⟩ (some "M") "primary" none none
        = .movie "M" (some "u1") ["source1", "source2"] :=
  (claim_C1_amended exStoreM "M" exMovieM "primary" none none
    (by decide) (by decide)).1 exSources rfl

/-- Claim C4 as stated fails on the code: `"S"` names a series (not a
movie) with a non-empty episode list and the requested `(9, 9)` pair
matches no stored episode, yet the resolver does not return a source
from the first stored episode — that episode has no sources mapping, so
the unguarded access throws and the request ends in a 500. -/
theorem claim_C4_counterexample :
    findByName exStoreS.movies "S" = none ∧
    findByName exStoreS.series "S" = some exSeriesS ∧
    exSeriesS.episodes ≠ [] ∧
    (exSeriesS.episodes.find? fun e => e.season == (9 : Int) && e.episode == (9 : Int)) = none ∧
    apiIframe exStoreS (some "S") "primary" (some 9) (some 9) = .serverError ∧
    (apiIframe exStoreS (some "S") "primary" (some 9) (some 9)).status = 500 := by
  exact ⟨rfl, by decide, by decide, by decide, by decide, by decide⟩

/-- Claim C4 (amended): for an iframe request naming a series (not a
movie) with a non-empty episode list, when the `(season, episode)` pair
matches no stored episode or the two are not both given, the resolver
answers from the first episode in the series' stored order provided
that episode has a sources mapping; when the first stored episode has
no sources mapping the request fails with a 500 server error instead. -/
theorem claim_C4_amended (store : Store) (title : String) (sr : Title)
    (source : String) (season? episode? : Option Int) (firstEp : Episode) (rest : List Episode)
    (hne : title ≠ "")
    (hm : findByName store.movies title = none)
    (hs : findByName store.series title = some sr)
    (heps : sr.episodes = firstEp :: rest)
    (hmiss : ∀ se ep, season? = some se → episode? = some ep →
      (sr.episodes.find? fun e => e.season == se && e.episode == ep) = none) :
    (∀ s, firstEp.sources = some s →
      apiIframe store (some title) source season? episode?
        = .seriesEp sr.name firstEp.season firstEp.episode firstEp.title
            (resolveIframe s source) s.keys) ∧
    (firstEp.sources = none →
      apiIframe store (some title) source season? episode? = .serverError) := by
  have hife : apiIframe store (some title) source season? episode?
      = iframeSeries store title source season? episode? := by
    simp [apiIframe, hne, hm]
  constructor
  · intro s hsome
    rw [hife]
    cases season? with
    | none => simp [iframeSeries, hs, heps, hsome]
    | some se =>
      cases episode? with
      | none => simp [iframeSeries, hs, heps, hsome]
      | some ep =>
        have hfind := hmiss se ep rfl rfl
        rw [heps] at hfind
        simp [iframeSeries, hs, heps, hsome, hfind]
  · intro hnone
    rw [hife]
    cases season? with
    | none => simp [iframeSeries, hs, heps, hnone]
    | some se =>
      cases episode? with
      | none => simp [iframeSeries, hs, heps, hnone]
      | some ep =>
        have hfind := hmiss se ep rfl rfl
        rw [heps] at hfind
        simp [iframeSeries, hs, heps, hnone, hfind]

/-- Claim C4 (amended), instantiated: a series request with no season
or episode given answers from the series' first stored episode. -/
theorem claim_C4_witness :
    apiIframe ⟨[], [exSeriesX]⟩ (some "X") "primary" none none
      = .seriesEp "X" 1 1 "E1" (some "u1") ["source1", "source2"] :=
  (claim_C4_amended ⟨[], [exSeriesX]⟩ "X" exSeriesX "primary" none none
      ⟨1, 1, "E1", some exSources⟩ [] (by decide) rfl (by decide) rfl
      (fun se ep h _ => nomatch h)).1 exSources rfl

/-- Inserting by `specRating` produces a permutation of consing. -/
theorem insertBySpecRating_perm (t : Title) (l : List Title) :
    List.Perm (insertBySpecRating t l) (t :: l) := by
  induction l with
  | nil => exact List.Perm.refl _
  | cons h rest ih =>
    by_cases hc : specRating h ≤ specRating t
    · simp [insertBySpecRating, hc]
    · simp only [insertBySpecRating, if_neg hc]
      exact (ih.cons h).trans (List.Perm.swap t h rest)

/-- The spec-modelled sort permutes its input. -/
theorem specSortByRatingDesc_perm (ts : List Title) :
    List.Perm (specSortByRatingDesc ts) ts := by
  induction ts with
  | nil => exact List.Perm.refl _
  | cons t rest ih =>
    exact (insertBySpecRating_perm t (specSortByRatingDesc rest)).trans (ih.cons t)

/-- On titles that all carry a rating, the program's comparator never
returns NaN and one insertion step agrees with the spec-modelled one. -/
theorem insertByRatingDesc_eq_spec (t : Title) (l : List Title)
    (ht : t.rating.isSome) (hl : ∀ u ∈ l, u.rating.isSome) :
    insertByRatingDesc t l = insertBySpecRating t l := by
  induction l with
  | nil => rfl
  | cons h rest ih =>
    obtain ⟨ra, hra⟩ := Option.isSome_iff_exists.mp ht
    obtain ⟨rb, hrb⟩ := Option.isSome_iff_exists.mp (hl h (List.mem_cons_self h rest))
    have heq : trendingKeepsOrder t h = decide (specRating h ≤ specRating t) := by
      simp [trendingKeepsOrder, specRating, hra, hrb]
    have ih2 := ih (fun u hu => hl u (List.mem_cons_of_mem h hu))
    by_cases hc : specRating h ≤ specRating t
    · simp [insertByRatingDesc, insertBySpecRating, heq, hc]
    · simp [insertByRatingDesc, insertBySpecRating, heq, hc, ih2]

/-- On a collection whose titles all carry a rating, the program's sort
equals the spec-modelled descending sort. -/
theorem sortByRatingDesc_eq_spec (ts : List Title)
    (h : ∀ t ∈ ts, t.rating.isSome) :
    sortByRatingDesc ts = specSortByRatingDesc ts := by
  induction ts with
  | nil => rfl
  | cons t rest ih =>
    have hrest : ∀ u ∈ rest, u.rating.isSome :=
      fun u hu => h u (List.mem_cons_of_mem t hu)
    show insertByRatingDesc t (sortByRatingDesc rest)
        = insertBySpecRating t (specSortByRatingDesc rest)
    rw [ih hrest]
    exact insertByRatingDesc_eq_spec t _ (h t (List.mem_cons_self t rest))
      (fun u hu => hrest u ((specSortByRatingDesc_perm rest).mem_iff.mp hu))

/-- Claim C9 as stated fails on the code: with an unrated movie stored
in front of a rating-9 movie and `limit = 2`, the trending comparator
compares them as NaN, the stable sort leaves the unrated title in
front, and the endpoint returns it — an item that is not among the
`limit / 2 = 1` highest-rated movies, which consist of the rating-9
title alone. -/
theorem claim_C9_counterexample :
    exMovieUnrated.rating = none ∧
    sortByRatingDesc [exMovieUnrated, exRatedMovie] = [exMovieUnrated, exRatedMovie] ∧
    apiTrending ⟨[exMovieUnrated, exRatedMovie], []⟩ none 2 id
      = [SearchItem.mk exMovieUnrated "movie"] ∧
    specTrendingPool ⟨[exMovieUnrated, exRatedMovie], []⟩ 2
      = [SearchItem.mk exRatedMovie "movie"] ∧
    SearchItem.mk exMovieUnrated "movie"
      ∉ specTrendingPool ⟨[exMovieUnrated, exRatedMovie], []⟩ 2 := by
  exact ⟨rfl, by decide, by decide, by decide, by decide⟩

/-- Claim C9 (amended): for every limit and every outcome of the
non-deterministic shuffle (any permutation of the pool), the trending
endpoint with `type` absent or `'all'` returns at most `limit` items;
and, provided every title of both collections carries a numeric
rating, every returned item belongs to the pool of the `limit / 2`
highest-rated movies (sorted by numeric rating descending, ties kept
in stored order) together with the `limit / 2` highest-rated series. -/
theorem claim_C9_amended (store : Store) (limit : Nat) (type? : Option String)
    (shuffle : List SearchItem → List SearchItem)
    (hshuffle : ∀ l, List.Perm (shuffle l) l)
    (htype : type? = none ∨ type? = some "all") :
    (apiTrending store type? limit shuffle).length ≤ limit ∧
    ((∀ t ∈ store.movies, t.rating.isSome) → (∀ t ∈ store.series, t.rating.isSome) →
      ∀ x ∈ apiTrending store type? limit shuffle,
        x ∈ specTrendingPool store limit) := by
  have hpool : trendingPool store type? limit
      = ((sortByRatingDesc store.movies).take (limit / 2)).map (fun t => SearchItem.mk t "movie")
        ++ ((sortByRatingDesc store.series).take (limit / 2)).map (fun t => SearchItem.mk t "series") := by
    rcases htype with h | h <;> subst h <;> simp [trendingPool]
  constructor
  · exact List.length_take_le _ _
  · intro hm hs x hx
    have hx2 : x ∈ trendingPool store type? limit :=
      (hshuffle _).mem_iff.mp (List.mem_of_mem_take hx)
    rw [hpool, sortByRatingDesc_eq_spec store.movies hm,
      sortByRatingDesc_eq_spec store.series hs] at hx2
    exact hx2

/-- Claim C9 (amended), instantiated: the identity permutation as
shuffle outcome on a fully rated two-title store with `limit = 2`. -/
theorem claim_C9_witness :
    (apiTrending exStoreM none 2 id).length ≤ 2 ∧
    ((∀ t ∈ exStoreM.movies, t.rating.isSome) → (∀ t ∈ exStoreM.series, t.rating.isSome) →
      ∀ x ∈ apiTrending exStoreM none 2 id,
        x ∈ specTrendingPool exStoreM 2) :=
  claim_C9_amended exStoreM 2 none id (fun l => List.Perm.refl l) (Or.inl rfl)

end ViewMax
